import Mathlib

/-!
Verification of the property-filter and CSV-export core of the ai-chem-pilot
front end. The embedding follows the two filter call sites
(MolecularVisualizer.tsx `handleFilterChange` in VAEModule, SMILESModule.tsx
`handleFilterChange`) and the two export call sites (`exportResults` in both
modules). JavaScript numbers are modelled as rationals; JavaScript objects
built for CSV rows are modelled as ordered key-value lists.
-/

set_option maxRecDepth 8000

/-- Numeric property block of a generated molecule
(`GeneratedMolecule.properties` in MolecularVisualizer.tsx). -/
structure MolProperties where
  mw : ℚ
  logp : ℚ
  hbd : ℚ
  hba : ℚ
  tpsa : ℚ
  deriving DecidableEq

/-- A molecule produced by the VAE module (`GeneratedMolecule` in
MolecularVisualizer.tsx). -/
structure GeneratedMolecule where
  id : String
  smiles : String
  properties : MolProperties
  drugLikeness : ℚ
  deriving DecidableEq

/-- The `lipinski` sub-object of a batch-analysis record
(`SMILESAnalysis.lipinski` in SMILESModule.tsx). -/
structure LipinskiFlags where
  mw : Bool
  logp : Bool
  hbd : Bool
  hba : Bool
  violations : ℚ
  deriving DecidableEq

/-- A batch-analysis record (`SMILESAnalysis` in SMILESModule.tsx). -/
structure SMILESAnalysis where
  smiles : String
  isValid : Bool
  molecularWeight : ℚ
  atomCount : ℚ
  bondCount : ℚ
  rings : ℚ
  aromaticRings : ℚ
  heteroatoms : ℚ
  rotatable : ℚ
  formula : String
  lipinski : LipinskiFlags
  deriving DecidableEq

/-- The filter-criteria value built by PropertyFilter (`FilterCriteria`
interface). -/
structure FilterCriteria where
  mwRange : ℚ × ℚ
  logpRange : ℚ × ℚ
  hbdMax : ℚ
  hbaMax : ℚ
  tpsaRange : ℚ × ℚ
  lipinskiCompliant : Bool
  qedMin : ℚ
  sasMax : ℚ
  deriving DecidableEq

/-- The default and reset state of the PropertyFilter sliders
(`useState` initialisers and `resetFilters`). -/
def defaultCriteria : FilterCriteria :=
  { mwRange := (0, 1000)
    logpRange := (-5, 5)
    hbdMax := 10
    hbaMax := 20
    tpsaRange := (0, 200)
    lipinskiCompliant := false
    qedMin := 0
    sasMax := 10 }

/-- The per-record predicate of the VAE-module filter
(MolecularVisualizer.tsx, `handleFilterChange`, lines 477-492). -/
def vaeMatches (criteria : FilterCriteria) (mol : GeneratedMolecule) : Bool :=
  let mw := mol.properties.mw
  let logp := mol.properties.logp
  let hbd := mol.properties.hbd
  let hba := mol.properties.hba
  let tpsa := mol.properties.tpsa
  decide (criteria.mwRange.1 ≤ mw) && decide (mw ≤ criteria.mwRange.2) &&
  decide (criteria.logpRange.1 ≤ logp) && decide (logp ≤ criteria.logpRange.2) &&
  decide (hbd ≤ criteria.hbdMax) &&
  decide (hba ≤ criteria.hbaMax) &&
  decide (criteria.tpsaRange.1 ≤ tpsa) && decide (tpsa ≤ criteria.tpsaRange.2) &&
  decide (criteria.qedMin ≤ mol.drugLikeness)

/-- The per-record predicate of the SMILES-module filter
(SMILESModule.tsx, `handleFilterChange`, lines 149-156). -/
def smilesMatches (criteria : FilterCriteria) (result : SMILESAnalysis) : Bool :=
  let mw := result.molecularWeight
  decide (criteria.mwRange.1 ≤ mw) && decide (mw ≤ criteria.mwRange.2) &&
  decide (result.heteroatoms ≤ criteria.hbaMax) &&
  decide (result.lipinski.violations ≤ (if criteria.lipinskiCompliant then 0 else 4))

/-- The `filtered` list computed by the VAE-module filter handler. -/
def applyVaeFilter (mols : List GeneratedMolecule) (criteria : FilterCriteria) :
    List GeneratedMolecule :=
  mols.filter (vaeMatches criteria)

/-- The `filtered` list computed by the SMILES-module filter handler. -/
def applySmilesFilter (results : List SMILESAnalysis) (criteria : FilterCriteria) :
    List SMILESAnalysis :=
  results.filter (smilesMatches criteria)

/-- The component state of VAEModule that the filter and export logic read:
`generatedMolecules` and `filteredMolecules`. -/
structure VAEModuleState where
  generatedMolecules : List GeneratedMolecule
  filteredMolecules : List GeneratedMolecule
  deriving DecidableEq

/-- The component state of SMILESModule that the filter and export logic read:
`batchResults` and `filteredResults`. -/
structure SMILESModuleState where
  batchResults : List SMILESAnalysis
  filteredResults : List SMILESAnalysis
  deriving DecidableEq

/-- `handleFilterChange` of VAEModule: `setFilteredMolecules(filtered)` over
`generatedMolecules`; `generatedMolecules` itself is untouched. -/
def vaeHandleFilterChange (s : VAEModuleState) (criteria : FilterCriteria) :
    VAEModuleState :=
  { s with filteredMolecules := applyVaeFilter s.generatedMolecules criteria }

/-- `handleFilterChange` of SMILESModule: `setFilteredResults(filtered)` over
`batchResults`; `batchResults` itself is untouched. -/
def smilesHandleFilterChange (s : SMILESModuleState) (criteria : FilterCriteria) :
    SMILESModuleState :=
  { s with filteredResults := applySmilesFilter s.batchResults criteria }

/-- A JavaScript scalar as it appears in a CSV row object: string, boolean or
number. -/
inductive CellValue where
  | str (s : String)
  | bool (b : Bool)
  | num (q : ℚ)
  deriving DecidableEq

/-- A CSV row object: keys in insertion order, each with its value. -/
abbrev CsvRow := List (String × CellValue)

/-- Join a list of strings with a separator, as `Array.prototype.join`. -/
def joinSep (sep : String) : List String → String
  | [] => ""
  | [x] => x
  | x :: xs => x ++ sep ++ joinSep sep xs

/-- Left-pad a string with the digit zero to the given width. -/
def padZeros (s : String) (w : ℕ) : String :=
  String.mk (List.replicate (w - s.length) '0') ++ s

/-- Drop trailing zero digits. -/
def trimTrailingZeros (s : String) : String :=
  String.mk ((s.data.reverse.dropWhile (fun c => c == '0')).reverse)

/-- Default JavaScript string conversion of a finite number, for numbers that
are exact decimals: integer part, then a dot and the fractional digits when
they are not all zero. Non-decimal rationals (which no call site produces)
fall back to a fraction rendering. -/
def ratToJsString (q : ℚ) : String :=
  match (List.range 64).find? (fun e => 10 ^ e % q.den == 0) with
  | some e =>
      let n : ℕ := (q.num * ((10 ^ e / q.den : ℕ) : ℤ)).natAbs
      let sign : String := if q.num < 0 then "-" else ""
      let fpart : String := trimTrailingZeros (padZeros (toString (n % 10 ^ e)) e)
      sign ++ toString (n / 10 ^ e) ++ (if fpart = "" then "" else "." ++ fpart)
  | none => toString q.num ++ "/" ++ toString q.den

/-- Default JavaScript string conversion of a row value, as applied by
`Object.values(row).join(',')`. -/
def renderCell : CellValue → String
  | CellValue.str s => s
  | CellValue.bool b => if b then "true" else "false"
  | CellValue.num q => ratToJsString q

/-- The array literal both export call sites build before joining with
newlines: `[Object.keys(data[0]).join(','), ...data.map(row =>
Object.values(row).join(','))]`. -/
def csvLines (data : List CsvRow) : List String :=
  joinSep "," (data.headI.map Prod.fst) ::
    data.map (fun row => joinSep "," (row.map (fun kv => renderCell kv.2)))

/-- The CSV text built by both export call sites: the line array joined with
`'\n'`. -/
def buildCsv (data : List CsvRow) : String :=
  joinSep "\n" (csvLines data)

/-- The row object built for one record by `exportResults` of SMILESModule
(lines 171-183). -/
def smilesExportRow (result : SMILESAnalysis) : CsvRow :=
  [("SMILES", CellValue.str result.smiles),
   ("Valid", CellValue.bool result.isValid),
   ("MolecularWeight", CellValue.num result.molecularWeight),
   ("Formula", CellValue.str result.formula),
   ("Atoms", CellValue.num result.atomCount),
   ("Bonds", CellValue.num result.bondCount),
   ("Rings", CellValue.num result.rings),
   ("AromaticRings", CellValue.num result.aromaticRings),
   ("Heteroatoms", CellValue.num result.heteroatoms),
   ("RotatableBonds", CellValue.num result.rotatable),
   ("LipinskiViolations", CellValue.num result.lipinski.violations)]

/-- The row object built for one molecule by `exportResults` of VAEModule
(lines 507-515). -/
def vaeExportRow (mol : GeneratedMolecule) : CsvRow :=
  [("SMILES", CellValue.str mol.smiles),
   ("DrugLikeness", CellValue.num mol.drugLikeness),
   ("MolecularWeight", CellValue.num mol.properties.mw),
   ("LogP", CellValue.num mol.properties.logp),
   ("HBD", CellValue.num mol.properties.hbd),
   ("HBA", CellValue.num mol.properties.hba),
   ("TPSA", CellValue.num mol.properties.tpsa)]

/-- The error taxonomy of the export paths: the only condition both call
sites raise before building any text is the empty-input guard. -/
inductive ExportError where
  | emptyExport
  deriving DecidableEq

/-- `exportResults` of SMILESModule: guard on `batchResults.length === 0`,
otherwise serialize `batchResults` (not `filteredResults`). -/
def smilesExportResults (s : SMILESModuleState) : Except ExportError String :=
  if s.batchResults.length = 0 then Except.error ExportError.emptyExport
  else Except.ok (buildCsv (s.batchResults.map smilesExportRow))

/-- `exportResults` of VAEModule: guard on `generatedMolecules.length === 0`,
otherwise serialize `generatedMolecules` (not `filteredMolecules`). -/
def vaeExportResults (s : VAEModuleState) : Except ExportError String :=
  if s.generatedMolecules.length = 0 then Except.error ExportError.emptyExport
  else Except.ok (buildCsv (s.generatedMolecules.map vaeExportRow))

/-- First entry of `mockMolecules` in MolecularVisualizer.tsx (aspirin). -/
def aspirinMolecule : GeneratedMolecule :=
  { id := "1"
    smiles := "CC(=O)OC1=CC=CC=C1C(=O)O"
    properties :=
      { mw := mkRat 18016 100
        logp := mkRat 119 100
        hbd := 1
        hba := 4
        tpsa := mkRat 636 10 }
    drugLikeness := mkRat 89 100 }

/-- A concrete batch-analysis record inside all default filter bounds. -/
def sampleAnalysis : SMILESAnalysis :=
  { smiles := "CC(=O)OC1=CC=CC=C1C(=O)O"
    isValid := true
    molecularWeight := mkRat 18016 100
    atomCount := 21
    bondCount := 25
    rings := 1
    aromaticRings := 1
    heteroatoms := 4
    rotatable := 3
    formula := "C9H8O4"
    lipinski := { mw := true, logp := true, hbd := true, hba := true, violations := 0 } }

/-- A concrete batch-analysis record with molecular weight 600, outside a
`[0, 500]` molecular-weight window. -/
def heavyAnalysis : SMILESAnalysis :=
  { smiles := "O=C(O)CCCCCCCCCCCCCCC"
    isValid := true
    molecularWeight := 600
    atomCount := 18
    bondCount := 17
    rings := 0
    aromaticRings := 0
    heteroatoms := 2
    rotatable := 14
    formula := "C16H32O2"
    lipinski := { mw := false, logp := true, hbd := true, hba := true, violations := 1 } }

/-- Default criteria narrowed to molecular weight at most 500. -/
def narrowCriteria : FilterCriteria :=
  { defaultCriteria with mwRange := (0, 500) }

/-- Criteria with an inverted molecular-weight range, `mwRange=[500,100]`. -/
def invertedCriteria : FilterCriteria :=
  { defaultCriteria with mwRange := (500, 100) }

/-- The test record of the CSV round-trip shape example. -/
def c3Record : CsvRow :=
  [("SMILES", CellValue.str "CCO"),
   ("Valid", CellValue.bool true),
   ("MolecularWeight", CellValue.num (mkRat 4607 100))]

/-- Count of a character in a string. -/
def charCount (c : Char) (s : String) : ℕ :=
  s.data.count c

/-- A generated molecule whose fields fall within the default filter bounds. -/
def vaeWithinDefaults (mol : GeneratedMolecule) : Prop :=
  0 ≤ mol.properties.mw ∧ mol.properties.mw ≤ 1000 ∧
  -5 ≤ mol.properties.logp ∧ mol.properties.logp ≤ 5 ∧
  mol.properties.hbd ≤ 10 ∧ mol.properties.hba ≤ 20 ∧
  0 ≤ mol.properties.tpsa ∧ mol.properties.tpsa ≤ 200 ∧
  0 ≤ mol.drugLikeness

/-- A batch-analysis record whose fields fall within the default filter
bounds read by the SMILES-module filter. -/
def smilesWithinDefaults (r : SMILESAnalysis) : Prop :=
  0 ≤ r.molecularWeight ∧ r.molecularWeight ≤ 1000 ∧
  r.heteroatoms ≤ 20 ∧ r.lipinski.violations ≤ 4

/-- A session state of SMILESModule after a filter application that keeps one
of two batch records. -/
def c4State : SMILESModuleState :=
  smilesHandleFilterChange
    { batchResults := [sampleAnalysis, heavyAnalysis], filteredResults := [] }
    narrowCriteria

/-- Propositional reading of the VAE-module filter predicate. -/
theorem vaeMatches_iff (c : FilterCriteria) (mol : GeneratedMolecule) :
    vaeMatches c mol = true ↔
      (c.mwRange.1 ≤ mol.properties.mw ∧ mol.properties.mw ≤ c.mwRange.2 ∧
       c.logpRange.1 ≤ mol.properties.logp ∧ mol.properties.logp ≤ c.logpRange.2 ∧
       mol.properties.hbd ≤ c.hbdMax ∧ mol.properties.hba ≤ c.hbaMax ∧
       c.tpsaRange.1 ≤ mol.properties.tpsa ∧ mol.properties.tpsa ≤ c.tpsaRange.2 ∧
       c.qedMin ≤ mol.drugLikeness) := by
  simp [vaeMatches, and_assoc]

/-- Propositional reading of the SMILES-module filter predicate. -/
theorem smilesMatches_iff (c : FilterCriteria) (r : SMILESAnalysis) :
    smilesMatches c r = true ↔
      (c.mwRange.1 ≤ r.molecularWeight ∧ r.molecularWeight ≤ c.mwRange.2 ∧
       r.heteroatoms ≤ c.hbaMax ∧
       r.lipinski.violations ≤ (if c.lipinskiCompliant then 0 else 4)) := by
  simp [smilesMatches, and_assoc]

/-- C1. Generator (VAE) profile filter characterization: a record of the
generated-molecule list is in the filter output iff its molecular weight,
logP, TPSA lie in the criteria ranges, its H-bond donor and acceptor counts
are at most the maxima, and its drug-likeness score is at least `qedMin`;
the criteria fields `lipinskiCompliant` and `sasMax` have no effect. -/
theorem spec_c1 (mols : List GeneratedMolecule) (c : FilterCriteria)
    (mol : GeneratedMolecule) (hmem : mol ∈ mols) :
    (mol ∈ applyVaeFilter mols c ↔
      (c.mwRange.1 ≤ mol.properties.mw ∧ mol.properties.mw ≤ c.mwRange.2 ∧
       c.logpRange.1 ≤ mol.properties.logp ∧ mol.properties.logp ≤ c.logpRange.2 ∧
       mol.properties.hbd ≤ c.hbdMax ∧ mol.properties.hba ≤ c.hbaMax ∧
       c.tpsaRange.1 ≤ mol.properties.tpsa ∧ mol.properties.tpsa ≤ c.tpsaRange.2 ∧
       c.qedMin ≤ mol.drugLikeness)) ∧
    (∀ b q, applyVaeFilter mols { c with lipinskiCompliant := b, sasMax := q } =
      applyVaeFilter mols c) := by
  refine ⟨?_, fun b q => rfl⟩
  rw [applyVaeFilter, List.mem_filter, vaeMatches_iff]
  simp [hmem]

/-- Witness for C1: the aspirin mock molecule under the default criteria. -/
theorem spec_c1_witness :
    aspirinMolecule ∈ applyVaeFilter [aspirinMolecule] defaultCriteria :=
  ((spec_c1 [aspirinMolecule] defaultCriteria aspirinMolecule (by decide)).1).mpr
    (by decide)

/-- C2. SMILES-analyzer profile filter characterization: a batch record is in
the filter output iff its molecular weight lies in the criteria range, its
heteroatom count is at most `hbaMax`, and its Lipinski violation count is at
most 0 when `lipinskiCompliant` is set, at most the literal bound 4
otherwise; the criteria fields `logpRange`, `hbdMax`, `tpsaRange`, `qedMin`
and `sasMax` have no effect. -/
theorem spec_c2 (results : List SMILESAnalysis) (c : FilterCriteria)
    (r : SMILESAnalysis) (hmem : r ∈ results) :
    (r ∈ applySmilesFilter results c ↔
      (c.mwRange.1 ≤ r.molecularWeight ∧ r.molecularWeight ≤ c.mwRange.2 ∧
       r.heteroatoms ≤ c.hbaMax ∧
       r.lipinski.violations ≤ (if c.lipinskiCompliant then 0 else 4))) ∧
    (∀ lr hd tr qm sm,
      applySmilesFilter results
        { c with logpRange := lr, hbdMax := hd, tpsaRange := tr,
                 qedMin := qm, sasMax := sm } =
      applySmilesFilter results c) := by
  refine ⟨?_, fun lr hd tr qm sm => rfl⟩
  rw [applySmilesFilter, List.mem_filter, smilesMatches_iff]
  simp [hmem]

/-- Witness for C2: a zero-violation record under the default criteria. -/
theorem spec_c2_witness :
    sampleAnalysis ∈ applySmilesFilter [sampleAnalysis] defaultCriteria :=
  ((spec_c2 [sampleAnalysis] defaultCriteria sampleAnalysis (by decide)).1).mpr
    (by decide)

/-- Unfolding equation of `joinSep` on a list of at least two strings. -/
theorem joinSep_cons_cons (sep x y : String) (ys : List String) :
    joinSep sep (x :: y :: ys) = x ++ sep ++ joinSep sep (y :: ys) := rfl

/-- C3. CSV serialization format: for every non-empty sequence of row
objects, the CSV text is the keys of the first row joined with commas,
followed by a newline and the rows, each the default string rendering of its
own values joined with commas, rows separated by newlines, with no quoting
or escaping. -/
theorem spec_c3 (data : List CsvRow) (h : data ≠ []) :
    buildCsv data =
      joinSep "," (data.headI.map Prod.fst) ++ "\n" ++
        joinSep "\n" (data.map fun row => joinSep "," (row.map fun kv => renderCell kv.2)) := by
  obtain ⟨r, rs, rfl⟩ := List.exists_cons_of_ne_nil h
  rfl

/-- Witness for C3: the round-trip shape example of the spec evaluates to
exactly the expected text, including the decimal rendering 46.07. -/
theorem spec_c3_witness :
    buildCsv [c3Record] = "SMILES,Valid,MolecularWeight\nCCO,true,46.07" := by
  rw [spec_c3 [c3Record] (by decide)]
  decide

/-- Counterexample for C4: in a session state whose most recent filter
application kept only one of two batch records, the export path still
serializes the full batch list, and the produced text differs from the text
the filtered list would give. -/
theorem spec_c4_counterexample :
    c4State.filteredResults = [sampleAnalysis] ∧
    c4State.filteredResults ≠ c4State.batchResults ∧
    smilesExportResults c4State =
      Except.ok (buildCsv (c4State.batchResults.map smilesExportRow)) ∧
    buildCsv (c4State.filteredResults.map smilesExportRow) ≠
      buildCsv (c4State.batchResults.map smilesExportRow) := by
  refine ⟨by decide, by decide, rfl, by decide⟩

/-- C4 as amended: the record sequence handed to CSV serialization by the
export operation is the full unfiltered collection (`batchResults`,
`generatedMolecules`), so the exported text is unchanged by any filter
application. -/
theorem spec_c4_amended (s : SMILESModuleState) (t : VAEModuleState)
    (c d : FilterCriteria) :
    smilesExportResults (smilesHandleFilterChange s c) = smilesExportResults s ∧
    vaeExportResults (vaeHandleFilterChange t d) = vaeExportResults t :=
  ⟨rfl, rfl⟩

/-- C5. Stable, non-mutating filter: both filter handlers leave the source
collection unchanged, and the filter output is a subsequence of the input
(hence order-preserving) whose members are exactly the matching records of
the input. -/
theorem spec_c5 (s : SMILESModuleState) (t : VAEModuleState)
    (mols : List GeneratedMolecule) (results : List SMILESAnalysis)
    (c : FilterCriteria) :
    (smilesHandleFilterChange s c).batchResults = s.batchResults ∧
    (vaeHandleFilterChange t c).generatedMolecules = t.generatedMolecules ∧
    (applyVaeFilter mols c).Sublist mols ∧
    (applySmilesFilter results c).Sublist results ∧
    (∀ mol, mol ∈ applyVaeFilter mols c ↔ mol ∈ mols ∧ vaeMatches c mol = true) ∧
    (∀ r, r ∈ applySmilesFilter results c ↔ r ∈ results ∧ smilesMatches c r = true) :=
  ⟨rfl, rfl, List.filter_sublist _, List.filter_sublist _,
    fun _ => List.mem_filter, fun _ => List.mem_filter⟩

/-- C6. Empty export raises and preserves state: the export operation yields
the `emptyExport` error exactly on an empty source collection, and yields a
text exactly on a non-empty one. -/
theorem spec_c6 (s : SMILESModuleState) (t : VAEModuleState) :
    (smilesExportResults s = Except.error ExportError.emptyExport ↔
      s.batchResults = []) ∧
    ((∃ text, smilesExportResults s = Except.ok text) ↔ s.batchResults ≠ []) ∧
    (vaeExportResults t = Except.error ExportError.emptyExport ↔
      t.generatedMolecules = []) ∧
    ((∃ text, vaeExportResults t = Except.ok text) ↔ t.generatedMolecules ≠ []) := by
  constructor
  · by_cases h : s.batchResults = [] <;>
      simp [smilesExportResults, h, List.length_eq_zero]
  constructor
  · by_cases h : s.batchResults = [] <;>
      simp [smilesExportResults, h, List.length_eq_zero]
  constructor
  · by_cases h : t.generatedMolecules = [] <;>
      simp [vaeExportResults, h, List.length_eq_zero]
  · by_cases h : t.generatedMolecules = [] <;>
      simp [vaeExportResults, h, List.length_eq_zero]

/-- C7. Inverted ranges match nothing and are not corrected: under criteria
whose molecular-weight range has its lower bound above its upper bound, both
filter applications return the empty list; no clamping or swapping of the
endpoints takes place (the filters are total functions and raise nothing). -/
theorem spec_c7 (mols : List GeneratedMolecule) (results : List SMILESAnalysis)
    (c : FilterCriteria) (h : c.mwRange.2 < c.mwRange.1) :
    applyVaeFilter mols c = [] ∧ applySmilesFilter results c = [] := by
  constructor
  · refine List.filter_eq_nil_iff.mpr fun mol _ hmatch => ?_
    obtain ⟨h1, h2, -⟩ := (vaeMatches_iff c mol).mp hmatch
    exact absurd (h1.trans h2) (not_le.mpr h)
  · refine List.filter_eq_nil_iff.mpr fun r _ hmatch => ?_
    obtain ⟨h1, h2, -⟩ := (smilesMatches_iff c r).mp hmatch
    exact absurd (h1.trans h2) (not_le.mpr h)

/-- Witness for C7: the inverted range `mwRange=[500,100]` filters out
concrete records in both modules. -/
theorem spec_c7_witness :
    applyVaeFilter [aspirinMolecule] invertedCriteria = [] ∧
    applySmilesFilter [sampleAnalysis] invertedCriteria = [] :=
  spec_c7 [aspirinMolecule] [sampleAnalysis] invertedCriteria (by decide)

/-- C8. Identity of the default criteria: applying the default/reset
criteria to a non-empty collection of records whose fields fall within the
default bounds returns the full collection unchanged and in order. -/
theorem spec_c8 (mols : List GeneratedMolecule) (results : List SMILESAnalysis)
    (_hm : mols ≠ []) (_hr : results ≠ [])
    (hbm : ∀ mol ∈ mols, vaeWithinDefaults mol)
    (hbr : ∀ r ∈ results, smilesWithinDefaults r) :
    applyVaeFilter mols defaultCriteria = mols ∧
    applySmilesFilter results defaultCriteria = results := by
  refine ⟨List.filter_eq_self.mpr fun mol hmol => ?_,
          List.filter_eq_self.mpr fun r hrr => ?_⟩
  · rw [vaeMatches_iff]
    have h := hbm mol hmol
    simp only [vaeWithinDefaults] at h
    simpa [defaultCriteria] using h
  · rw [smilesMatches_iff]
    have h := hbr r hrr
    simp only [smilesWithinDefaults] at h
    simpa [defaultCriteria] using h

/-- Witness for C8: singleton collections built from the concrete records
are returned whole by the default criteria. -/
theorem spec_c8_witness :
    applyVaeFilter [aspirinMolecule] defaultCriteria = [aspirinMolecule] ∧
    applySmilesFilter [sampleAnalysis] defaultCriteria = [sampleAnalysis] :=
  spec_c8 [aspirinMolecule] [sampleAnalysis] (by decide) (by decide)
    (by
      intro mol hmol
      rw [List.mem_singleton] at hmol
      subst hmol
      unfold vaeWithinDefaults
      decide)
    (by
      intro r hrr
      rw [List.mem_singleton] at hrr
      subst hrr
      unfold smilesWithinDefaults
      decide)

/-- C9. Monotonicity in `lipinskiCompliant`: with the flag set the
SMILES-module filter output is a subsequence of the output with the flag
clear, and pointwise a record matches with the flag set exactly when it
matches with the flag clear and has no Lipinski violations (so flipping the
flag to true removes exactly the matching records with a positive violation
count and admits no new records). -/
theorem spec_c9 (results : List SMILESAnalysis) (c : FilterCriteria) :
    (applySmilesFilter results { c with lipinskiCompliant := true }).Sublist
      (applySmilesFilter results { c with lipinskiCompliant := false }) ∧
    (∀ r, smilesMatches { c with lipinskiCompliant := true } r =
      (smilesMatches { c with lipinskiCompliant := false } r &&
        decide (r.lipinski.violations ≤ 0))) := by
  have hpoint : ∀ r : SMILESAnalysis,
      smilesMatches { c with lipinskiCompliant := true } r =
        (smilesMatches { c with lipinskiCompliant := false } r &&
          decide (r.lipinski.violations ≤ 0)) := by
    intro r
    by_cases h0 : r.lipinski.violations ≤ 0
    · have h4 : r.lipinski.violations ≤ 4 := h0.trans (by norm_num)
      simp [smilesMatches, h0, h4]
    · simp [smilesMatches, h0]
  refine ⟨?_, hpoint⟩
  have hsplit : applySmilesFilter results { c with lipinskiCompliant := true } =
      (applySmilesFilter results { c with lipinskiCompliant := false }).filter
        (fun r => decide (r.lipinski.violations ≤ 0)) := by
    rw [applySmilesFilter, applySmilesFilter, List.filter_filter]
    exact List.filter_congr fun r _ => by rw [hpoint r, Bool.and_comm]
  rw [hsplit]
  exact List.filter_sublist _

/-- Joining strings free of a character with a separator also free of it
yields a string free of it. -/
theorem charCount_joinSep_eq_zero (c : Char) (sep : String) (xs : List String)
    (hsep : charCount c sep = 0) (hx : ∀ x ∈ xs, charCount c x = 0) :
    charCount c (joinSep sep xs) = 0 := by
  induction xs with
  | nil => rfl
  | cons x xs ih =>
    cases xs with
    | nil => exact hx x (by simp)
    | cons y ys =>
      rw [joinSep_cons_cons]
      have h1 := hx x (by simp)
      have h2 : charCount c (joinSep sep (y :: ys)) = 0 :=
        ih fun z hz => hx z (List.mem_cons_of_mem _ hz)
      simp only [charCount, String.data_append, List.count_append] at h1 h2 hsep ⊢
      omega

/-- Newline count of the newline join: one newline between each pair of
adjacent newline-free lines. -/
theorem charCount_newline_joinSep (lines : List String)
    (h : ∀ l ∈ lines, charCount '\n' l = 0) :
    charCount '\n' (joinSep "\n" lines) = lines.length - 1 := by
  induction lines with
  | nil => rfl
  | cons x xs ih =>
    cases xs with
    | nil => exact h x (by simp)
    | cons y ys =>
      rw [joinSep_cons_cons]
      have h1 := h x (by simp)
      have h2 := ih fun l hl => h l (List.mem_cons_of_mem _ hl)
      have hnl : ("\n" : String).data = ['\n'] := rfl
      have h3 : List.count '\n' ['\n'] = 1 := by decide
      simp only [charCount, String.data_append, List.count_append, hnl,
        List.length_cons] at h1 h2 ⊢
      omega

/-- The newline join of at least two strings has non-empty character data. -/
theorem joinSep_two_data_ne_nil (sep x y : String) (ys : List String)
    (hsep : sep.data ≠ []) :
    (joinSep sep (x :: y :: ys)).data ≠ [] := by
  rw [joinSep_cons_cons]
  intro hcontra
  rw [String.data_append, String.data_append] at hcontra
  rcases List.append_eq_nil.mp hcontra with ⟨h1, -⟩
  rcases List.append_eq_nil.mp h1 with ⟨-, h2⟩
  exact hsep h2

/-- Reduction of `Option.or` on a present first component. -/
theorem option_some_or {α : Type} (a : α) (o : Option α) :
    (Option.some a).or o = Option.some a := rfl

/-- The last character of a newline join of non-empty lines is the last
character of the last line. -/
theorem getLast?_joinSep (lines : List String) :
    ∀ (hne : lines ≠ []), (∀ l ∈ lines, l.data ≠ []) →
      (joinSep "\n" lines).data.getLast? = (lines.getLast hne).data.getLast? := by
  induction lines with
  | nil => exact fun hne _ => absurd rfl hne
  | cons x xs ih =>
    intro _hne h
    cases xs with
    | nil => rfl
    | cons y ys =>
      have htail : (y :: ys : List String) ≠ [] := by simp
      have htl : ∀ l ∈ y :: ys, l.data ≠ [] :=
        fun l hl => h l (List.mem_cons_of_mem _ hl)
      have hjoin : (joinSep "\n" (y :: ys)).data ≠ [] := by
        cases ys with
        | nil => exact htl y (by simp)
        | cons z zs =>
          exact joinSep_two_data_ne_nil "\n" y z zs (by decide)
      have hdata : (joinSep "\n" (x :: y :: ys)).data =
          x.data ++ ('\n' :: (joinSep "\n" (y :: ys)).data) := by
        rw [joinSep_cons_cons]
        simp [String.data_append, show ("\n" : String).data = ['\n'] from rfl]
      rw [hdata, List.getLast?_append]
      obtain ⟨j, js, hj⟩ := List.exists_cons_of_ne_nil hjoin
      rw [hj, List.getLast?_cons_cons,
        List.getLast?_eq_getLast (j :: js) (by simp), option_some_or]
      have hih := ih htail htl
      rw [hj, List.getLast?_eq_getLast (j :: js) (by simp)] at hih
      rw [hih]
      simp [List.getLast_cons_cons]

/-- A string free of newlines does not end with one. -/
theorem charCount_zero_getLast_ne (s : String) (hz : charCount '\n' s = 0) :
    s.data.getLast? ≠ some '\n' := by
  intro hlast
  have hmem : '\n' ∈ s.data := List.mem_of_mem_getLast? hlast
  exact absurd hmem (List.count_eq_zero.mp hz)

/-- Shape of the CSV text when every line is newline-free and non-empty: one
newline per data row and no trailing newline. -/
theorem buildCsv_shape (data : List CsvRow)
    (hall : ∀ l ∈ csvLines data, charCount '\n' l = 0 ∧ l.data ≠ []) :
    charCount '\n' (buildCsv data) = data.length ∧
    (buildCsv data).data.getLast? ≠ some '\n' := by
  have hne2 : csvLines data ≠ [] := by simp [csvLines]
  constructor
  · rw [buildCsv, charCount_newline_joinSep _ fun l hl => (hall l hl).1]
    simp [csvLines]
  · rw [buildCsv, getLast?_joinSep _ hne2 fun l hl => (hall l hl).2]
    exact charCount_zero_getLast_ne _ (hall _ (List.getLast_mem hne2)).1

/-- A CSV row line is newline-free when each rendered value of the row is. -/
theorem rowLine_newline_free (row : CsvRow)
    (h : ∀ kv ∈ row, charCount '\n' (renderCell kv.2) = 0) :
    charCount '\n' (joinSep "," (row.map fun kv => renderCell kv.2)) = 0 := by
  refine charCount_joinSep_eq_zero _ _ _ (by decide) ?_
  intro x hx
  obtain ⟨kv, hkv, rfl⟩ := List.mem_map.mp hx
  exact h kv hkv

/-- C10. Exact line count and no trailing newline: for a non-empty record
list whose rendered field values contain no newline character, the CSV text
of either export call site contains exactly one newline per record (hence
one header line plus one line per record in order) and does not end with a
newline. -/
theorem spec_c10 (batch : List SMILESAnalysis) (mols : List GeneratedMolecule)
    (hb : batch ≠ []) (hm : mols ≠ [])
    (hvb : ∀ r ∈ batch, ∀ kv ∈ smilesExportRow r,
      charCount '\n' (renderCell kv.2) = 0)
    (hvm : ∀ m ∈ mols, ∀ kv ∈ vaeExportRow m,
      charCount '\n' (renderCell kv.2) = 0) :
    (charCount '\n' (buildCsv (batch.map smilesExportRow)) = batch.length ∧
      (buildCsv (batch.map smilesExportRow)).data.getLast? ≠ some '\n') ∧
    (charCount '\n' (buildCsv (mols.map vaeExportRow)) = mols.length ∧
      (buildCsv (mols.map vaeExportRow)).data.getLast? ≠ some '\n') := by
  constructor
  · obtain ⟨r0, rs, rfl⟩ := List.exists_cons_of_ne_nil hb
    have hshape := buildCsv_shape ((r0 :: rs).map smilesExportRow) ?_
    · simpa using hshape
    · intro l hl
      simp only [csvLines, List.map_cons, List.mem_cons, List.headI_cons] at hl
      rcases hl with hl | hl | hl
      · subst hl
        rw [show joinSep "," (List.map Prod.fst (smilesExportRow r0)) =
          "SMILES,Valid,MolecularWeight,Formula,Atoms,Bonds,Rings,AromaticRings,Heteroatoms,RotatableBonds,LipinskiViolations" from rfl]
        exact ⟨by decide, by decide⟩
      · subst hl
        refine ⟨rowLine_newline_free _ (hvb r0 (by simp)), ?_⟩
        exact joinSep_two_data_ne_nil "," _ _ _ (by decide)
      · obtain ⟨row, hrow, rfl⟩ := List.mem_map.mp hl
        obtain ⟨r1, hr1, rfl⟩ := List.mem_map.mp hrow
        refine ⟨rowLine_newline_free _ (hvb r1 (List.mem_cons_of_mem _ hr1)), ?_⟩
        exact joinSep_two_data_ne_nil "," _ _ _ (by decide)
  · obtain ⟨m0, ms, rfl⟩ := List.exists_cons_of_ne_nil hm
    have hshape := buildCsv_shape ((m0 :: ms).map vaeExportRow) ?_
    · simpa using hshape
    · intro l hl
      simp only [csvLines, List.map_cons, List.mem_cons, List.headI_cons] at hl
      rcases hl with hl | hl | hl
      · subst hl
        rw [show joinSep "," (List.map Prod.fst (vaeExportRow m0)) =
          "SMILES,DrugLikeness,MolecularWeight,LogP,HBD,HBA,TPSA" from rfl]
        exact ⟨by decide, by decide⟩
      · subst hl
        refine ⟨rowLine_newline_free _ (hvm m0 (by simp)), ?_⟩
        exact joinSep_two_data_ne_nil "," _ _ _ (by decide)
      · obtain ⟨row, hrow, rfl⟩ := List.mem_map.mp hl
        obtain ⟨m1, hm1, rfl⟩ := List.mem_map.mp hrow
        refine ⟨rowLine_newline_free _ (hvm m1 (List.mem_cons_of_mem _ hm1)), ?_⟩
        exact joinSep_two_data_ne_nil "," _ _ _ (by decide)

/-- Witness for C10: singleton exports of the concrete records have exactly
one newline and do not end with one. -/
theorem spec_c10_witness :
    (charCount '\n' (buildCsv ([sampleAnalysis].map smilesExportRow)) =
        [sampleAnalysis].length ∧
      (buildCsv ([sampleAnalysis].map smilesExportRow)).data.getLast? ≠
        some '\n') ∧
    (charCount '\n' (buildCsv ([aspirinMolecule].map vaeExportRow)) =
        [aspirinMolecule].length ∧
      (buildCsv ([aspirinMolecule].map vaeExportRow)).data.getLast? ≠
        some '\n') :=
  spec_c10 [sampleAnalysis] [aspirinMolecule] (by decide) (by decide)
    (by decide) (by decide)
